import Mathlib

/-!
Verification development for patchpal, a human-in-the-loop patch review
broker.  The definitions below are a shallow embedding of the program:

* the wire data model (`Status`, `PatchResponse`, `Patch`) and a byte-level
  codec for the two protobuf messages (the file src/patch.proto and the
  prost-generated module are not part of the source tree, so the codec is
  modelled from the spec, Sec. 6);
* a model of the external unidiff crate's unified-diff parser
  (`parsePatchSet`), needed because src/tui.rs parses the patch text when
  it builds a `PatchRequest`;
* the review queue (`Requests.pop` / `Requests.peek`) and the review-loop
  key handling (`handleKeyEvent`, `handlePatchResponse`) from src/tui.rs;
* the per-connection handler state machine (`handlerStep`) from
  src/server.rs;
* the submitter's response handling (`clientRespond`) from src/client.rs.

Effects are made explicit: channel sends become lists of
(channel id, response) pairs, panics become explicit `panicked` outcomes,
and each `select!` suspension point becomes a step function over the events
its arms actually wait on.
-/

namespace Patchpal

/-- Modelled from the spec: src/patch.proto is not under src/.  Spec Sec. 6
gives the Decision status enum as Unknown = 0, Accepted = 1, Rejected = 2;
prost generates this Rust enum `Status` with `From<Status> for i32` and
`TryFrom<i32> for Status`. -/
inductive Status where
  | unknown
  | accepted
  | rejected
deriving DecidableEq, Repr

/-- The prost-generated conversion Status -> i32 (Unknown = 0, Accepted = 1,
Rejected = 2, spec Sec. 6). -/
def Status.toInt32 : Status → Int
  | .unknown => 0
  | .accepted => 1
  | .rejected => 2

/-- The prost-generated fallible conversion i32 -> Status used by
`response.status.try_into()?` in src/client.rs: 0, 1, 2 map to the three
variants, anything else is an error. -/
def Status.tryFromInt32 (n : Int) : Except String Status :=
  if n = 0 then .ok .unknown
  else if n = 1 then .ok .accepted
  else if n = 2 then .ok .rejected
  else .error "invalid status value"

/-- Modelled from the spec: the Decision wire message (src/patch.proto is not
under src/).  prost keeps the enum field as a raw i32. -/
structure PatchResponse where
  status : Int
deriving DecidableEq, Repr

/-- Modelled from the spec: the Submission wire message (src/patch.proto is
not under src/).  Spec Sec. 6: `patch: string` (unified diff text),
`metadata: optional string`. -/
structure Patch where
  metadata : Option String
  patch : String
deriving DecidableEq, Repr

deriving instance DecidableEq for Except

/-! ### Byte-level codec

Modelled from the spec (Sec. 4.1 and Sec. 6): the prost-generated encode and
decode functions for the two messages are not under src/.  The model follows
protobuf wire format: a message is a sequence of fields, each a varint tag
(field number * 8 + wire type) followed by the field payload; decoding fails
on a truncated varint, a truncated payload, field number 0 or an invalid
wire type, and unknown fields are skipped.  String payloads are modelled for
the ASCII subset of UTF-8 (all bytes of the claims' inputs are ASCII). -/

/-- Base-128 varint decoding, least significant group first.
Returns the value and the remaining bytes. -/
def decodeVarint : List Nat → Except String (Nat × List Nat)
  | [] => .error "truncated varint"
  | b :: rest =>
    if b < 128 then .ok (b, rest)
    else
      match decodeVarint rest with
      | .ok (v, r2) => .ok (b % 128 + 128 * v, r2)
      | .error e => .error e

/-- A varint reinterpreted as a 32-bit signed integer (prost decodes an
int32 field this way). -/
def intOfVarint32 (n : Nat) : Int :=
  let m : Nat := n % 2 ^ 32
  if m < 2 ^ 31 then (m : Int) else (m : Int) - 2 ^ 32

/-- Bytes of a string field, decoded as text.  The model covers the ASCII
subset of UTF-8: a byte 128 or larger is rejected as invalid. -/
def strOfBytes (bs : List Nat) : Except String String :=
  if bs.all (fun b => b < 128) then .ok (String.mk (bs.map (fun b => Char.ofNat b)))
  else .error "invalid utf-8 (model covers the ascii subset)"

/-- Field loop of `decodePatch`.  Field 1 is `metadata` (optional string),
field 2 is `patch` (string), matching the order of the generated struct;
fuel is one more than the number of bytes, and every iteration consumes at
least one byte. -/
def decodePatchGo : Nat → List Nat → Option String → String → Except String Patch
  | _, [], meta, patch => .ok ⟨meta, patch⟩
  | 0, _ :: _, _, _ => .error "fuel exhausted (unreachable: each field consumes a byte)"
  | fuel + 1, bytes, meta, patch =>
    match decodeVarint bytes with
    | .error e => .error e
    | .ok (tag, rest) =>
      let fieldNo := tag / 8
      let wire := tag % 8
      if fieldNo = 0 then .error "invalid field number" else
      match wire with
      | 0 =>
        (match decodeVarint rest with
         | .error e => .error e
         | .ok (_, r2) => decodePatchGo fuel r2 meta patch)
      | 1 =>
        if 8 ≤ rest.length then decodePatchGo fuel (rest.drop 8) meta patch
        else .error "buffer underflow"
      | 2 =>
        (match decodeVarint rest with
         | .error e => .error e
         | .ok (len, r2) =>
           if len ≤ r2.length then
             match fieldNo, strOfBytes (r2.take len) with
             | 1, .ok s => decodePatchGo fuel (r2.drop len) (some s) patch
             | 1, .error e => .error e
             | 2, .ok s => decodePatchGo fuel (r2.drop len) meta s
             | 2, .error e => .error e
             | _, _ => decodePatchGo fuel (r2.drop len) meta patch
           else .error "buffer underflow")
      | 5 =>
        if 4 ≤ rest.length then decodePatchGo fuel (rest.drop 4) meta patch
        else .error "buffer underflow"
      | _ => .error "invalid wire type"

/-- `Patch::decode(bytes)`: decode a Submission, absent fields keeping their
proto3 defaults (no metadata, empty patch string). -/
def decodePatch (b : List Nat) : Except String Patch :=
  decodePatchGo (b.length + 1) b none ""

/-- Field loop of `decodePatchResponse`.  Field 1 is `status` (int32). -/
def decodePatchResponseGo : Nat → List Nat → Int → Except String PatchResponse
  | _, [], st => .ok ⟨st⟩
  | 0, _ :: _, _ => .error "fuel exhausted (unreachable: each field consumes a byte)"
  | fuel + 1, bytes, st =>
    match decodeVarint bytes with
    | .error e => .error e
    | .ok (tag, rest) =>
      let fieldNo := tag / 8
      let wire := tag % 8
      if fieldNo = 0 then .error "invalid field number" else
      match wire with
      | 0 =>
        (match decodeVarint rest with
         | .error e => .error e
         | .ok (v, r2) =>
           if fieldNo = 1 then decodePatchResponseGo fuel r2 (intOfVarint32 v)
           else decodePatchResponseGo fuel r2 st)
      | 1 =>
        if 8 ≤ rest.length then decodePatchResponseGo fuel (rest.drop 8) st
        else .error "buffer underflow"
      | 2 =>
        (match decodeVarint rest with
         | .error e => .error e
         | .ok (len, r2) =>
           if len ≤ r2.length then decodePatchResponseGo fuel (r2.drop len) st
           else .error "buffer underflow")
      | 5 =>
        if 4 ≤ rest.length then decodePatchResponseGo fuel (rest.drop 4) st
        else .error "buffer underflow"
      | _ => .error "invalid wire type"

/-- `PatchResponse::decode(bytes)`: decode a Decision, an absent status field
keeping the proto3 default 0 (Unknown). -/
def decodePatchResponse (b : List Nat) : Except String PatchResponse :=
  decodePatchResponseGo (b.length + 1) b 0

/-! ### Unified diff parsing

Model of the external unidiff crate used by src/tui.rs
(`patch.parse::<PatchSet>()`).  A patch set is a list of patched files, each
a list of hunks of tagged lines (spec Sec. 3).  Parsing walks the input line
by line: `--- ` and `+++ ` lines open a new file section, `@@ -a,b +c,d @@`
lines open a hunk expecting `b` source and `d` target lines, and inside an
unfinished hunk a line is classified by its first character (`+` added,
`-` removed, space context, backslash ignored).  Parsing fails on a hunk
before any file header, a `+++ ` line without a preceding `--- ` line, a
line inside a hunk with an unexpected first character, more lines in a hunk
than its header declared, or a hunk left shorter than declared. -/

/-- Tag of one line of a hunk: added, removed or context. -/
inductive LineTag where
  | added
  | removed
  | context
deriving DecidableEq, Repr

/-- One line of a hunk: its tag and its text (without the tag character). -/
structure HunkLine where
  tag : LineTag
  value : String
deriving DecidableEq, Repr

/-- One hunk: the four numbers of its `@@` header and its tagged lines. -/
structure Hunk where
  sourceStart : Nat
  sourceLength : Nat
  targetStart : Nat
  targetLength : Nat
  lines : List HunkLine
deriving DecidableEq, Repr

/-- One patched file: source and target names and the hunks touching it. -/
structure PatchedFile where
  source_file : String
  target_file : String
  hunks : List Hunk
deriving DecidableEq, Repr

/-- The unidiff PatchSet: the ordered list of patched files. -/
abbrev PatchSet := List PatchedFile

/-- The lines of a string as Rust's `str::lines` yields them: split at
newlines, a trailing carriage return stripped from each line, no final empty
line for a trailing newline. -/
def splitLinesGo : List Char → List Char → List (List Char)
  | [], acc => [acc.reverse]
  | '\n' :: rest, acc => acc.reverse :: splitLinesGo rest []
  | c :: rest, acc => splitLinesGo rest (c :: acc)

/-- Strip one trailing carriage return, as `str::lines` does. -/
def stripCR (l : List Char) : List Char :=
  if l.getLast? = some '\r' then l.dropLast else l

/-- See `splitLinesGo`. -/
def linesOf (s : String) : List (List Char) :=
  let parts := splitLinesGo s.data []
  let parts := if parts.getLast? = some [] then parts.dropLast else parts
  parts.map stripCR

/-- Longest digit prefix of a character list, and the rest. -/
def takeDigits : List Char → List Char × List Char
  | [] => ([], [])
  | c :: rest =>
    if c.isDigit then
      let p := takeDigits rest
      (c :: p.1, p.2)
    else ([], c :: rest)

/-- The number a digit list denotes. -/
def natOfDigits (ds : List Char) : Nat :=
  ds.foldl (fun acc c => 10 * acc + (c.toNat - 48)) 0

/-- A nonempty digit prefix as a number, with the rest; none if no digit. -/
def parseNum (cs : List Char) : Option (Nat × List Char) :=
  match takeDigits cs with
  | ([], _) => none
  | (ds, rest) => some (natOfDigits ds, rest)

/-- An optional `,length` suffix of a hunk-header range; when absent the
length defaults to 1 and nothing is consumed (mirroring the optional regex
group of the crate's hunk-header pattern). -/
def parseOptLen (cs : List Char) : Nat × List Char :=
  match cs with
  | ',' :: rest =>
    (match parseNum rest with
     | some (n, r2) => (n, r2)
     | none => (1, ',' :: rest))
  | _ => (1, cs)

/-- A hunk header `@@ -a[,b] +c[,d] @@...` giving
(sourceStart, sourceLength, targetStart, targetLength); none if the line is
no hunk header. -/
def parseHunkHeader (cs : List Char) : Option (Nat × Nat × Nat × Nat) :=
  match cs with
  | '@' :: '@' :: ' ' :: '-' :: r1 =>
    (match parseNum r1 with
     | none => none
     | some (sStart, r2) =>
       let sl := parseOptLen r2
       match sl.2 with
       | ' ' :: '+' :: r4 =>
         (match parseNum r4 with
          | none => none
          | some (tStart, r5) =>
            let tl := parseOptLen r5
            match tl.2 with
            | ' ' :: '@' :: '@' :: _ => some (sStart, sl.1, tStart, tl.1)
            | _ => none)
       | _ => none)
  | _ => none

/-- A file name of a `--- ` or `+++ ` header line: the text up to a tab. -/
def fileNameOf (cs : List Char) : String :=
  String.mk (cs.takeWhile (fun c => c ≠ '\t'))

/-- An unfinished hunk while parsing: its header, the lines collected so far
in reverse, and how many source and target lines are still expected. -/
structure HunkBuild where
  header : Nat × Nat × Nat × Nat
  revLines : List HunkLine
  srcRemaining : Nat
  tgtRemaining : Nat
deriving DecidableEq, Repr

/-- The file section being parsed: names and finished hunks. -/
structure FileBuild where
  source_file : String
  target_file : String
  hunks : List Hunk
deriving DecidableEq, Repr

/-- Parser state: finished files, a pending `--- ` name, the open file
section and the unfinished hunk. -/
structure ParseState where
  done : List PatchedFile
  pendingSource : Option String
  current : Option FileBuild
  curHunk : Option HunkBuild
deriving DecidableEq, Repr

/-- A finished hunk from its build state. -/
def closeHunk (hb : HunkBuild) : Hunk :=
  ⟨hb.header.1, hb.header.2.1, hb.header.2.2.1, hb.header.2.2.2, hb.revLines.reverse⟩

/-- A finished file from its build state. -/
def closeFile (fb : FileBuild) : PatchedFile :=
  ⟨fb.source_file, fb.target_file, fb.hunks⟩

/-- Append one classified line to the unfinished hunk, erring when the hunk
already holds as many lines of that side as its header declared; a hunk
whose two counts both reach zero is closed into the current file. -/
def addHunkLine (st : ParseState) (fb : FileBuild) (hb : HunkBuild)
    (tag : LineTag) (value : List Char) : Except String ParseState :=
  let need : Nat × Nat :=
    match tag with
    | .added => (hb.srcRemaining, hb.tgtRemaining - 1)
    | .removed => (hb.srcRemaining - 1, hb.tgtRemaining)
    | .context => (hb.srcRemaining - 1, hb.tgtRemaining - 1)
  let lacking : Bool :=
    match tag with
    | .added => hb.tgtRemaining = 0
    | .removed => hb.srcRemaining = 0
    | .context => hb.srcRemaining = 0 || hb.tgtRemaining = 0
  if lacking then .error "hunk is longer than expected"
  else
    let hb2 : HunkBuild :=
      ⟨hb.header, ⟨tag, String.mk value⟩ :: hb.revLines, need.1, need.2⟩
    if hb2.srcRemaining = 0 ∧ hb2.tgtRemaining = 0 then
      .ok { st with
              current := some { fb with hunks := fb.hunks ++ [closeHunk hb2] }
              curHunk := none }
    else .ok { st with curHunk := some hb2 }

/-- One line of input against the parser state. -/
def parseLine (st : ParseState) (l : List Char) : Except String ParseState :=
  match st.curHunk, st.current with
  | some hb, some fb =>
    (match l with
     | '+' :: v => addHunkLine st fb hb .added v
     | '-' :: v => addHunkLine st fb hb .removed v
     | ' ' :: v => addHunkLine st fb hb .context v
     | '\\' :: _ => .ok st
     | [] => addHunkLine st fb hb .context []
     | _ => .error "hunk line expected")
  | some _, none => .error "hunk without file (unreachable: a hunk opens inside a file)"
  | none, _ =>
    match l with
    | '-' :: '-' :: '-' :: ' ' :: rest =>
      .ok { st with pendingSource := some (fileNameOf rest) }
    | '+' :: '+' :: '+' :: ' ' :: rest =>
      (match st.pendingSource with
       | none => .error "unexpected target file found"
       | some src =>
         .ok { st with
                 done := st.done ++ (st.current.map closeFile).toList
                 pendingSource := none
                 current := some ⟨src, fileNameOf rest, []⟩ })
    | _ =>
      match parseHunkHeader l with
      | some (a, b, c, d) =>
        (match st.current with
         | none => .error "unexpected hunk found"
         | some fb =>
           if b = 0 ∧ d = 0 then
             .ok { st with current := some { fb with hunks := fb.hunks ++ [⟨a, b, c, d, []⟩] } }
           else
             .ok { st with curHunk := some ⟨(a, b, c, d), [], b, d⟩ })
      | none => .ok st

/-- `str.parse::<PatchSet>()` of the unidiff crate: fold `parseLine` over
the lines, then close the last file, erring if a hunk is left shorter than
its header declared. -/
def parsePatchSet (s : String) : Except String PatchSet :=
  match (linesOf s).foldlM parseLine ⟨[], none, none, none⟩ with
  | .error e => .error e
  | .ok st =>
    match st.curHunk with
    | some _ => .error "hunk is shorter than expected"
    | none => .ok (st.done ++ (st.current.map closeFile).toList)

/-! ### The review loop (src/tui.rs)

Channels are made explicit: a `PatchRequest`'s single-use response channel
becomes a channel id (`Nat`), a successful `send` is recorded as a
(channel id, response) pair, and whether a channel's receiver still exists
is an environment parameter `alive`.  A Rust panic (an `expect` or `unwrap`
firing) becomes the explicit outcome `panicked` with the panic message. -/

/-- `PatchRequest` of src/tui.rs: the parsed patch set, the metadata and the
request's single-use response channel (modelled by its id). -/
structure PatchRequest where
  patch_set : PatchSet
  metadata : Option String
  response_chan : Nat
deriving DecidableEq, Repr

/-- `impl TryFrom<(Patch, Sender<PatchResponse>)> for PatchRequest`
(src/tui.rs lines 33-46): parse the patch text as a unified diff, failing
when the parse fails. -/
def PatchRequest.tryFrom (p : Patch) (response_chan : Nat) : Except String PatchRequest :=
  match parsePatchSet p.patch with
  | .error e => .error e
  | .ok ps => .ok ⟨ps, p.metadata, response_chan⟩

/-- `Requests` of src/tui.rs: the one-slot lookahead (the `peek` field of
the Rust struct, renamed `lookahead` here because Lean cannot give a field
and a method the same name) and the already-waiting backlog of the broker
channel, oldest first (`receiver.try_recv()` succeeds exactly when the
backlog is nonempty and yields its head). -/
structure Requests where
  lookahead : Option PatchRequest
  receiver : List PatchRequest
deriving DecidableEq, Repr

/-- `Requests::pop` (src/tui.rs lines 54-64): return the lookahead slot's
content; if an item is already waiting, move it into the slot, otherwise
clear the slot. -/
def Requests.pop (s : Requests) : Option PatchRequest × Requests :=
  let prev := s.lookahead
  match s.receiver with
  | req :: rest => (prev, ⟨some req, rest⟩)
  | [] => (prev, ⟨none, []⟩)

/-- `Requests::peek` (src/tui.rs lines 66-75): if the slot holds an item,
return it; otherwise pull a waiting item into the slot and return it, or
return none.  Like the Rust method (`&mut self`) it may change the state. -/
def Requests.peek (s : Requests) : Option PatchRequest × Requests :=
  match s.lookahead with
  | some _ => (s.lookahead, s)
  | none =>
    match s.receiver with
    | req :: rest => (some req, ⟨some req, rest⟩)
    | [] => (none, s)

/-- Display-only scroll state (the external tui_scrollview crate), modelled
freely: each scroll operation is a constructor.  No claim depends on the
scroll arithmetic, only on scroll keys leaving the queue and the exit flag
alone. -/
inductive ScrollViewState where
  | new
  | afterScrollUp (s : ScrollViewState)
  | afterScrollDown (s : ScrollViewState)
  | afterScrollToTop (s : ScrollViewState)
  | afterScrollToBottom (s : ScrollViewState)
  | afterScrollPageUp (s : ScrollViewState)
  | afterScrollPageDown (s : ScrollViewState)
deriving DecidableEq, Repr

/-- `App` of src/tui.rs: the queue, the display-only scroll state and the
exit flag (the frame rate drives only the redraw tick and is omitted). -/
structure App where
  requests : Requests
  scroll_state : ScrollViewState
  exit : Bool
deriving DecidableEq, Repr

/-- A crossterm key code: a character key or some other key. -/
inductive KeyCode where
  | char (c : Char)
  | otherKey
deriving DecidableEq, Repr

/-- The key modifiers `handle_key_event` distinguishes: NONE, CONTROL or
anything else. -/
inductive KeyModifiers where
  | none
  | control
  | otherMods
deriving DecidableEq, Repr

/-- A key press event (only press events reach `handle_key_event`; release
and repeat events are filtered in `handle_events`). -/
structure KeyEvent where
  code : KeyCode
  modifiers : KeyModifiers
deriving DecidableEq, Repr

/-- Outcome of one key event: the new app state together with the responses
successfully handed to their channels, or a panic aborting the review
loop. -/
inductive StepResult where
  | ok (a : App) (sent : List (Nat × PatchResponse))
  | panicked (msg : String)
deriving DecidableEq, Repr

/-- The new app state of a non-panicking step. -/
def StepResult.okApp : StepResult → Option App
  | .ok a _ => some a
  | .panicked _ => none

/-- The responses a step handed to channels (none after a panic: the single
send of `handle_patch_response` is only recorded when it succeeds, and the
bulk loops record every drained item because their send results are
discarded with `let _ =`). -/
def StepResult.sent : StepResult → List (Nat × PatchResponse)
  | .ok _ out => out
  | .panicked _ => []

/-- `App::handle_patch_response` (src/tui.rs lines 256-266): pop the active
request — panicking when there is none — and send the response on its
channel, panicking when the channel's receiver is gone (`send` returns an
error and the `expect` fires). -/
def handlePatchResponse (alive : Nat → Bool) (a : App) (response : PatchResponse) : StepResult :=
  match a.requests.pop with
  | (none, _) => .panicked "can't handle response w/o patch"
  | (some req, rq) =>
    if alive req.response_chan then
      .ok { a with requests := rq } [(req.response_chan, response)]
    else .panicked "should be able to respond"

/-- The `while let Some(req) = self.requests.pop()` loops of the
accept-all and reject-all arms, with fuel: each successful pop shrinks
the queue, so `Requests.size + 1` rounds of fuel always suffice (see
`drainAll_some`).  Returns the popped requests in order and the final
queue state — the state left by the final, failing `pop` call included. -/
def drainFuel : Nat → Requests → List PatchRequest × Requests
  | 0, s => ([], s)
  | n + 1, s =>
    match s.pop with
    | (none, s2) => ([], s2)
    | (some r, s2) =>
      let d := drainFuel n s2
      (r :: d.1, d.2)

/-- Number of requests held by the queue state. -/
def Requests.size (s : Requests) : Nat :=
  (if s.lookahead.isSome then 1 else 0) + s.receiver.length

/-- The drain loop run to completion. -/
def drainAll (s : Requests) : List PatchRequest × Requests :=
  drainFuel (s.size + 1) s

/-- `App::handle_key_event` (src/tui.rs lines 143-254).  The Rust `match`
is over disjoint (key code, modifiers) pairs; the embedding groups the arms
by modifier and compares the character with an if-chain, which is the same
function.  The reject-all arm (`d` with no modifier) sends
`Status::Accepted`, exactly as the source does (src/tui.rs lines 200-207):
the embedding reproduces the defect the spec flags in Sec. 9. -/
def handleKeyEvent (alive : Nat → Bool) (a : App) (e : KeyEvent) : StepResult :=
  match e.code with
  | .char c =>
    match e.modifiers with
    | .none =>
      if c = 'q' then .ok { a with exit := true } []
      else if c = 'y' then handlePatchResponse alive a ⟨Status.accepted.toInt32⟩
      else if c = 'n' then handlePatchResponse alive a ⟨Status.rejected.toInt32⟩
      else if c = 'a' then
        let d := drainAll a.requests
        .ok { a with requests := d.2, exit := true }
          (d.1.map (fun r => (r.response_chan, ⟨Status.accepted.toInt32⟩)))
      else if c = 'd' then
        let d := drainAll a.requests
        .ok { a with requests := d.2, exit := true }
          (d.1.map (fun r => (r.response_chan, ⟨Status.accepted.toInt32⟩)))
      else if c = 'k' then .ok { a with scroll_state := .afterScrollUp a.scroll_state } []
      else if c = 'j' then .ok { a with scroll_state := .afterScrollDown a.scroll_state } []
      else if c = 'g' then .ok { a with scroll_state := .afterScrollToTop a.scroll_state } []
      else if c = 'G' then .ok { a with scroll_state := .afterScrollToBottom a.scroll_state } []
      else .ok a []
    | .control =>
      if c = 'c' then .ok { a with exit := true } []
      else if c = 'u' then .ok { a with scroll_state := .afterScrollPageUp a.scroll_state } []
      else if c = 'd' then .ok { a with scroll_state := .afterScrollPageDown a.scroll_state } []
      else .ok a []
    | .otherMods => .ok a []
  | .otherKey => .ok a []

/-! ### The connection handler (src/server.rs, `handle_connection`)

The handler body is two nested `select!`s: the outer one (its Awaiting
suspension point) waits on the next inbound websocket message or on the
cancellation token; after a request is dispatched, the inner one (its
Dispatched suspension point) has a single arm waiting only on
`response_rx.recv()`.  `handlerStep` maps the state and an event to what
the code does there; `none` means the event is not among the arms of the
`select!` the handler is suspended in, so nothing happens on it. -/

/-- The handler's suspension point: between messages (the outer `select!`),
or with a request in flight (the inner `select!`). -/
inductive HPhase where
  | awaiting
  | dispatched
deriving DecidableEq, Repr

/-- An inbound websocket message: a binary frame or anything else. -/
inductive WsIncoming where
  | binary (b : List Nat)
  | other
deriving DecidableEq, Repr

/-- An event a handler can be resumed on: the inbound stream yielding a
message (none = stream end), the response channel yielding a Decision
(none = channel closed, its sender dropped), or the cancellation token
firing. -/
inductive HEvent where
  | msg (m : Option WsIncoming)
  | response (r : Option PatchResponse)
  | cancelled
deriving DecidableEq, Repr

/-- The handler's state: the suspension point, the requests forwarded to
the broker, the responses written back to the client and whether the
outbound side was closed.  A fresh request's channel id is the number of
requests forwarded so far. -/
structure HandlerState where
  phase : HPhase
  toBroker : List PatchRequest
  toClient : List PatchResponse
  outboundClosed : Bool
deriving DecidableEq, Repr

/-- What a resumed handler does: keep looping, return (the task ends), or
panic (an `unwrap`/`expect` fired, aborting the task). -/
inductive HandlerResult where
  | running (s : HandlerState)
  | returned (s : HandlerState)
  | panicked (msg : String)
deriving DecidableEq, Repr

/-- One resumption of `handle_connection` (src/server.rs lines 99-139).
In `awaiting`, a binary frame is decoded with `.unwrap()` (panicking on
malformed bytes), turned into a `PatchRequest` with
`.expect("patches should all be valid")` (panicking when the diff does not
parse) and forwarded, moving to `dispatched`; stream end returns; a
non-binary message is logged and skipped; cancellation closes the outbound
side and returns.  In `dispatched` the inner `select!` has a single arm, so
only the response channel is observed: a Decision is written back, a closed
channel is logged, and either way the handler loops back to `awaiting`;
cancellation and inbound messages are not among its arms (`none`). -/
def handlerStep (s : HandlerState) (ev : HEvent) : Option HandlerResult :=
  match s.phase, ev with
  | .awaiting, .msg (some (.binary b)) =>
    some (match decodePatch b with
      | .error _ => .panicked "called Result::unwrap on an Err value"
      | .ok patch =>
        match PatchRequest.tryFrom patch s.toBroker.length with
        | .error _ => .panicked "patches should all be valid"
        | .ok req => .running { s with phase := .dispatched, toBroker := s.toBroker ++ [req] })
  | .awaiting, .msg none => some (.returned s)
  | .awaiting, .msg (some .other) => some (.running s)
  | .awaiting, .cancelled => some (.returned { s with outboundClosed := true })
  | .awaiting, .response _ => none
  | .dispatched, .response none => some (.running { s with phase := .awaiting })
  | .dispatched, .response (some r) =>
    some (.running { s with phase := .awaiting, toClient := s.toClient ++ [r] })
  | .dispatched, .cancelled => none
  | .dispatched, .msg _ => none

/-! ### The submitter's response handling (src/client.rs, `Client::run`)

After sending its patch the client awaits one websocket message and either
returns `Ok(())` (the process exits 0), returns an error through `bail!` or
`?` (the process exits nonzero), calls `std::process::exit(1)`, or panics
(`.unwrap()` on an undecodable response). -/

/-- What `ws_rx.next().await` can yield the client: a binary frame, a close
frame, some other frame, a socket error, or stream end (`None`). -/
inductive WsClientMsg where
  | binary (b : List Nat)
  | close
  | otherMsg
deriving DecidableEq, Repr

/-- How `Client::run` ends. -/
inductive ClientEnd where
  | retOk
  | retErr (msg : String)
  | processExit (code : Nat)
  | panicked (msg : String)
deriving DecidableEq, Repr

/-- The match on the awaited response in `Client::run` (src/client.rs lines
151-174): a binary frame is decoded with `.unwrap()` and its status
converted with `try_into()?`; Accepted returns `Ok(())`, Rejected calls
`process::exit(1)`, Unknown bails; a close frame, a socket error and any
other message are only logged and the function returns `Ok(())`. -/
def clientRespond (reply : Option (Except String WsClientMsg)) : ClientEnd :=
  match reply with
  | some (.ok (.binary b)) =>
    (match decodePatchResponse b with
     | .error _ => .panicked "called Result::unwrap on an Err value"
     | .ok resp =>
       match Status.tryFromInt32 resp.status with
       | .ok .accepted => .retOk
       | .ok .rejected => .processExit 1
       | .ok .unknown => .retErr "who knows..."
       | .error e => .retErr e)
  | some (.ok .close) => .retOk
  | some (.ok .otherMsg) => .retOk
  | some (.error _) => .retOk
  | none => .retOk

/-- The submitter process's exit code for each way `Client::run` ends: 0
for `Ok(())`, 1 for an `anyhow` error, the explicit code of
`process::exit`, and 101 (the Rust panic exit code) for a panic. -/
def exitCodeOf : ClientEnd → Nat
  | .retOk => 0
  | .retErr _ => 1
  | .processExit c => c
  | .panicked _ => 101

/-! ### Concrete inputs used by the claims -/

/-- A request on channel 0 (the patch-set content is irrelevant to the
queue-level claims). -/
def req0 : PatchRequest := ⟨[], none, 0⟩

/-- A request on channel 1. -/
def req1 : PatchRequest := ⟨[], none, 1⟩

/-- Environment in which every response channel's receiver is alive. -/
def aliveAll : Nat → Bool := fun _ => true

/-- Environment in which every response channel's receiver is gone. -/
def deadAll : Nat → Bool := fun _ => false

/-- A binary frame: the protobuf encoding of the Submission with no
metadata whose patch text is the bare hunk header line `@@ -1 +1 @@`
(field 2, length 11, then the ASCII bytes). -/
def badPatchBytes : List Nat := [18, 11, 64, 64, 32, 45, 49, 32, 43, 49, 32, 64, 64]

/-! ### Lemmas about the drain loop -/

/-- Draining an empty queue pops nothing and leaves it empty. -/
theorem drainFuel_none_nil (n : Nat) :
    drainFuel n ⟨none, []⟩ = ([], ⟨none, []⟩) := by
  cases n <;> simp [drainFuel, Requests.pop]

/-- With fuel beyond the backlog's length, draining a queue whose lookahead
slot holds `p` pops `p` and then the whole backlog in order, leaving the
queue empty. -/
theorem drainFuel_some (l : List PatchRequest) (p : PatchRequest) (n : Nat)
    (h : l.length + 1 ≤ n) :
    drainFuel n ⟨some p, l⟩ = (p :: l, ⟨none, []⟩) := by
  induction l generalizing p n with
  | nil =>
    obtain ⟨m, rfl⟩ : ∃ m, n = m + 1 := ⟨n - 1, (Nat.succ_pred_eq_of_pos h).symm⟩
    simp [drainFuel, Requests.pop, drainFuel_none_nil]
  | cons x rest ih =>
    obtain ⟨m, rfl⟩ : ∃ m, n = m + 1 :=
      ⟨n - 1, (Nat.succ_pred_eq_of_pos (Nat.lt_of_lt_of_le (Nat.succ_pos _) h)).symm⟩
    have hm : rest.length + 1 ≤ m := by
      simpa [Nat.succ_le_succ_iff] using h
    simp [drainFuel, Requests.pop, ih x m hm]

/-- `drainAll` on a queue with a nonempty lookahead slot: everything is
drained, oldest first, and the queue ends empty. -/
theorem drainAll_some (p : PatchRequest) (l : List PatchRequest) :
    drainAll ⟨some p, l⟩ = (p :: l, ⟨none, []⟩) := by
  apply drainFuel_some
  simp [Requests.size]

/-- `drainAll` on an empty queue: nothing drained. -/
theorem drainAll_none_nil : drainAll ⟨none, []⟩ = ([], ⟨none, []⟩) := rfl

/-- `drainAll` on a queue whose lookahead slot is empty while the backlog is
not: the first failing `pop` ends the loop at once, yet moves the first
waiting item into the slot — nothing is drained and one item stays queued. -/
theorem drainAll_none_cons (x : PatchRequest) (l : List PatchRequest) :
    drainAll ⟨none, x :: l⟩ = ([], ⟨some x, l⟩) := by
  simp [drainAll, Requests.size, drainFuel, Requests.pop]

/-! ### Equations of `handleKeyEvent` at the decision keys -/

/-- Key `y` (no modifier) runs `handle_patch_response` with Accepted. -/
theorem handleKeyEvent_accept (alive : Nat → Bool) (a : App) :
    handleKeyEvent alive a ⟨.char 'y', .none⟩
      = handlePatchResponse alive a ⟨Status.accepted.toInt32⟩ := rfl

/-- Key `n` (no modifier) runs `handle_patch_response` with Rejected. -/
theorem handleKeyEvent_reject (alive : Nat → Bool) (a : App) :
    handleKeyEvent alive a ⟨.char 'n', .none⟩
      = handlePatchResponse alive a ⟨Status.rejected.toInt32⟩ := rfl

/-- Key `a` (no modifier): drain the queue, send Accepted to each drained
request, set the exit flag. -/
theorem handleKeyEvent_acceptAll (alive : Nat → Bool) (a : App) :
    handleKeyEvent alive a ⟨.char 'a', .none⟩
      = .ok { a with requests := (drainAll a.requests).2, exit := true }
          ((drainAll a.requests).1.map
            (fun r => (r.response_chan, ⟨Status.accepted.toInt32⟩))) := rfl

/-- Key `d` (no modifier): drain the queue, send Accepted (the source
defect) to each drained request, set the exit flag. -/
theorem handleKeyEvent_rejectAll (alive : Nat → Bool) (a : App) :
    handleKeyEvent alive a ⟨.char 'd', .none⟩
      = .ok { a with requests := (drainAll a.requests).2, exit := true }
          ((drainAll a.requests).1.map
            (fun r => (r.response_chan, ⟨Status.accepted.toInt32⟩))) := rfl

/-! ### The claims -/

/-- C1: the reject-all bulk action should send `Rejected` to every drained
request, but the source's `d` arm sends `Accepted` (src/tui.rs lines
200-207): with one queued request on channel 0, pressing `d` sends that
channel the response with status `Accepted`, which is not `Rejected`.  This
evaluates the code at the claim's failing input. -/
theorem c1_reject_all_sends_accepted :
    handleKeyEvent aliveAll ⟨⟨some req0, []⟩, .new, false⟩ ⟨.char 'd', .none⟩
      = .ok ⟨⟨none, []⟩, .new, true⟩ [(0, ⟨Status.accepted.toInt32⟩)]
    ∧ Status.accepted.toInt32 ≠ Status.rejected.toInt32 := by
  exact ⟨rfl, by decide⟩

/-- C2 counterexample: starting from the queue state with an empty lookahead
slot and one already-waiting request, accept-all sets the exit flag but
drains nothing — afterwards `peek()` returns the waiting request, not
none. -/
theorem c2_counterexample :
    handleKeyEvent aliveAll ⟨⟨none, [req0]⟩, .new, false⟩ ⟨.char 'a', .none⟩
      = .ok ⟨⟨some req0, []⟩, .new, true⟩ []
    ∧ (Requests.peek ⟨some req0, []⟩).1 ≠ none := by
  exact ⟨rfl, by decide⟩

/-- C2 (amended): after accept-all or reject-all the exit flag is set, and
the queue is fully drained — `peek()` then returns none — provided the
lookahead slot was nonempty or the backlog was empty when the action fired;
when the slot is empty with a nonempty backlog, the drain loop's first
`pop` returns none at once, so nothing is drained (see the
counterexample). -/
theorem c2_amended (a : App) (alive : Nat → Bool)
    (h : a.requests.lookahead.isSome ∨ a.requests.receiver = []) :
    ((handleKeyEvent alive a ⟨.char 'a', .none⟩).okApp
        = some { a with requests := ⟨none, []⟩, exit := true }
      ∧ (handleKeyEvent alive a ⟨.char 'd', .none⟩).okApp
        = some { a with requests := ⟨none, []⟩, exit := true })
    ∧ (Requests.peek ⟨none, []⟩).1 = none := by
  obtain ⟨⟨la, rec⟩, sc, ex⟩ := a
  refine ⟨?_, rfl⟩
  have hdrain : (drainAll ⟨la, rec⟩).2 = ⟨none, []⟩ := by
    rcases h with hla | hrec
    · obtain ⟨p, rfl⟩ := Option.isSome_iff_exists.mp hla
      simp [drainAll_some]
    · cases hrec
      cases la with
      | none => rfl
      | some p => simp [drainAll_some]
  rw [handleKeyEvent_acceptAll, handleKeyEvent_rejectAll]
  simp [StepResult.okApp, hdrain]

/-- Witness for C2 (amended): a queue whose lookahead slot holds one request
satisfies the hypothesis, and both bulk actions leave the queue empty with
the exit flag set. -/
theorem c2_amended_witness :
    ((handleKeyEvent aliveAll ⟨⟨some req0, []⟩, .new, false⟩ ⟨.char 'a', .none⟩).okApp
        = some ⟨⟨none, []⟩, .new, true⟩
      ∧ (handleKeyEvent aliveAll ⟨⟨some req0, []⟩, .new, false⟩ ⟨.char 'd', .none⟩).okApp
        = some ⟨⟨none, []⟩, .new, true⟩)
    ∧ (Requests.peek ⟨none, []⟩).1 = none :=
  c2_amended ⟨⟨some req0, []⟩, .new, false⟩ aliveAll (Or.inl rfl)

/-- C3 counterexample: on the queue state with an empty lookahead slot and
one already-waiting request, `peek()` would return that request but `pop()`
returns none — so `pop()` does not return what `peek()` would return in the
same state, exactly in the case the claim singles out. -/
theorem c3_counterexample :
    (Requests.peek ⟨none, [req0]⟩).1 = some req0
    ∧ (Requests.pop ⟨none, [req0]⟩).1 = none
    ∧ (Requests.pop ⟨none, [req0]⟩).1 ≠ (Requests.peek ⟨none, [req0]⟩).1 := by
  decide

/-- C3 (amended): `pop()` returns the current content of the lookahead slot,
clears it, and refills it from the first already-waiting item via the
non-blocking probe; its return value agrees with what `peek()` would return
whenever the slot is nonempty or no item is waiting — but not when the slot
is empty while an item waits (then `peek()` would return the waiting item
and `pop()` returns none). -/
theorem c3_amended (s : Requests) :
    (s.pop).1 = s.lookahead
    ∧ (s.pop).2 = ⟨s.receiver.head?, s.receiver.tail⟩
    ∧ ((s.lookahead.isSome ∨ s.receiver = []) → (s.pop).1 = (s.peek).1) := by
  obtain ⟨la, rec⟩ := s
  cases la <;> cases rec <;> simp [Requests.pop, Requests.peek]

/-- C4: on a binary frame whose bytes do not decode as a Submission (the
single byte 0xFF is a truncated varint), the handler does not log-and-drop
and stay in Awaiting: the `.unwrap()` on `Patch::decode` panics, aborting
the handler task and with it the connection.  This evaluates the code at
the claim's failing input. -/
theorem c4_decode_failure_panics :
    decodePatch [255] = .error "truncated varint"
    ∧ handlerStep ⟨.awaiting, [], [], false⟩ (.msg (some (.binary [255])))
        = some (.panicked "called Result::unwrap on an Err value") := by
  decide

/-- C5: sending a Decision into a response channel whose receiver is gone
is a non-fatal no-op only on the bulk paths (their send results are
discarded with `let _ =`); the single accept path panics through
`.expect("should be able to respond")` when the receiver of the active
request's channel has vanished.  This evaluates the code at the claim's
failing input: same starting state, dead receiver, key `y` versus key
`a`. -/
theorem c5_dropped_receiver_panics_single_accept :
    handleKeyEvent deadAll ⟨⟨some req0, []⟩, .new, false⟩ ⟨.char 'y', .none⟩
      = .panicked "should be able to respond"
    ∧ handleKeyEvent deadAll ⟨⟨some req0, []⟩, .new, false⟩ ⟨.char 'a', .none⟩
      = .ok ⟨⟨none, []⟩, .new, true⟩ [(0, ⟨Status.accepted.toInt32⟩)] := by
  exact ⟨rfl, rfl⟩

/-- C6 counterexample: when the server closes the connection before any
Decision arrives, `Client::run` only logs and returns `Ok(())` — the
submitter exits 0, not nonzero as the claim states. -/
theorem c6_counterexample :
    clientRespond (some (.ok .close)) = .retOk
    ∧ exitCodeOf (clientRespond (some (.ok .close))) = 0 := by
  decide

/-- C6 (amended): the submitter exits 0 when its patch was delivered and
Accepted, but also when the server closes the connection, a socket error
occurs, the stream ends or an unexpected message arrives before a Decision;
it exits nonzero exactly on a decoded Decision frame that is not Accepted —
Rejected (exit 1), the Unknown placeholder, or an unrecognized status
value.  A nonzero exit can only come from a binary Decision frame. -/
theorem c6_amended :
    (∀ reply, exitCodeOf (clientRespond reply) ≠ 0 →
      ∃ b, reply = some (.ok (.binary b)))
    ∧ decodePatchResponse [8, 1] = .ok ⟨Status.accepted.toInt32⟩
    ∧ exitCodeOf (clientRespond (some (.ok (.binary [8, 1])))) = 0
    ∧ decodePatchResponse [8, 2] = .ok ⟨Status.rejected.toInt32⟩
    ∧ exitCodeOf (clientRespond (some (.ok (.binary [8, 2])))) = 1
    ∧ decodePatchResponse [8, 0] = .ok ⟨Status.unknown.toInt32⟩
    ∧ exitCodeOf (clientRespond (some (.ok (.binary [8, 0])))) = 1
    ∧ exitCodeOf (clientRespond (some (.ok (.binary [8, 3])))) = 1
    ∧ exitCodeOf (clientRespond (some (.ok .close))) = 0
    ∧ exitCodeOf (clientRespond (some (.error "socket error"))) = 0
    ∧ exitCodeOf (clientRespond (some (.ok .otherMsg))) = 0
    ∧ exitCodeOf (clientRespond none) = 0 := by
  refine ⟨?_, by decide, by decide, by decide, by decide, by decide, by decide,
    by decide, by decide, by decide, by decide, by decide⟩
  intro reply h
  match reply with
  | none => exact absurd rfl h
  | some (.error e) => exact absurd rfl h
  | some (.ok .close) => exact absurd rfl h
  | some (.ok .otherMsg) => exact absurd rfl h
  | some (.ok (.binary b)) => exact ⟨b, rfl⟩

/-- C7 counterexample: a handler in Dispatched (one request in flight) does
not observe the cancellation signal at that suspension point: the inner
`select!` of src/server.rs (lines 111-122) has a single arm waiting only on
the response channel, so on cancellation no transition happens at all
(`none`) — in particular not the claimed close-outbound-and-go-Closing
one. -/
theorem c7_counterexample :
    handlerStep ⟨.dispatched, [req0], [], false⟩ .cancelled = none
    ∧ ¬ ∃ r, handlerStep ⟨.dispatched, [req0], [], false⟩ .cancelled = some r := by
  refine ⟨rfl, ?_⟩
  rintro ⟨r, hr⟩
  exact Option.noConfusion hr

/-- C7 (amended): in Dispatched the handler waits only on the response
channel and does not observe the CancellationSignal at that suspension
point; it unwinds indirectly — when shutdown drops the channel's sender,
`recv` yields none and the handler returns to Awaiting, where the outer
`select!` does observe the signal, closes the outbound side and
terminates. -/
theorem c7_amended (s : HandlerState) (h : s.phase = .dispatched) :
    handlerStep s .cancelled = none
    ∧ handlerStep s (.response none) = some (.running { s with phase := .awaiting })
    ∧ handlerStep { s with phase := .awaiting } .cancelled
        = some (.returned { s with phase := .awaiting, outboundClosed := true }) := by
  obtain ⟨ph, tb, tc, oc⟩ := s
  cases h
  exact ⟨rfl, rfl, rfl⟩

/-- Witness for C7 (amended) at a concrete Dispatched state. -/
theorem c7_amended_witness :
    handlerStep ⟨.dispatched, [req0], [], false⟩ .cancelled = none
    ∧ handlerStep ⟨.dispatched, [req0], [], false⟩ (.response none)
        = some (.running ⟨.awaiting, [req0], [], false⟩)
    ∧ handlerStep ⟨.awaiting, [req0], [], false⟩ .cancelled
        = some (.returned ⟨.awaiting, [req0], [], true⟩) :=
  c7_amended ⟨.dispatched, [req0], [], false⟩ rfl

/-- Every response `handle_patch_response` hands to a channel is the
response it was called with. -/
theorem handlePatchResponse_sent (alive : Nat → Bool) (a : App)
    (resp : PatchResponse) (a2 : App) (out : List (Nat × PatchResponse))
    (h : handlePatchResponse alive a resp = .ok a2 out)
    (c : Nat) (r : PatchResponse) (hm : (c, r) ∈ out) : r = resp := by
  unfold handlePatchResponse at h
  split at h
  · simp at h
  · split at h
    · injection h with h1 h2
      subst h2
      simp at hm
      exact hm.2
    · simp at h

/-- C8: the Review Loop never constructs or acts on the Unknown decision:
whatever the key event, the queue state and the channel environment, every
`PatchResponse` a non-panicking `handle_key_event` step hands to a response
channel has status Accepted or Rejected, never Unknown. -/
theorem c8_sends_only_accepted_or_rejected
    (alive : Nat → Bool) (a : App) (e : KeyEvent) (a2 : App)
    (out : List (Nat × PatchResponse))
    (hstep : handleKeyEvent alive a e = .ok a2 out)
    (c : Nat) (r : PatchResponse) (hmem : (c, r) ∈ out) :
    (r.status = Status.accepted.toInt32 ∨ r.status = Status.rejected.toInt32)
    ∧ r.status ≠ Status.unknown.toInt32 := by
  obtain ⟨code, mods⟩ := e
  cases code with
  | otherKey =>
    simp only [handleKeyEvent] at hstep
    injection hstep with h1 h2
    subst h2
    simp at hmem
  | char ch =>
    cases mods with
    | otherMods =>
      simp only [handleKeyEvent] at hstep
      injection hstep with h1 h2
      subst h2
      simp at hmem
    | control =>
      simp only [handleKeyEvent] at hstep
      split_ifs at hstep <;>
        (injection hstep with h1 h2; subst h2; simp at hmem)
    | none =>
      simp only [handleKeyEvent] at hstep
      split_ifs at hstep
      all_goals first
        | (injection hstep with h1 h2; subst h2; simp at hmem; done)
        | (have hr : r = ⟨Status.accepted.toInt32⟩ :=
             handlePatchResponse_sent alive a _ a2 out hstep c r hmem
           subst hr
           decide)
        | (have hr : r = ⟨Status.rejected.toInt32⟩ :=
             handlePatchResponse_sent alive a _ a2 out hstep c r hmem
           subst hr
           decide)
        | (injection hstep with h1 h2; subst h2
           simp only [List.mem_map] at hmem
           obtain ⟨x, hx, hxeq⟩ := hmem
           cases hxeq
           decide)

/-- Witness for C8: pressing `y` with one active request on channel 0 hands
that channel the Accepted response, whose status is Accepted or Rejected
and is not Unknown. -/
theorem c8_witness :
    (((⟨Status.accepted.toInt32⟩ : PatchResponse).status = Status.accepted.toInt32
        ∨ (⟨Status.accepted.toInt32⟩ : PatchResponse).status = Status.rejected.toInt32)
      ∧ (⟨Status.accepted.toInt32⟩ : PatchResponse).status ≠ Status.unknown.toInt32) :=
  c8_sends_only_accepted_or_rejected aliveAll ⟨⟨some req0, []⟩, .new, false⟩
    ⟨.char 'y', .none⟩ ⟨⟨none, []⟩, .new, false⟩
    [(0, ⟨Status.accepted.toInt32⟩)] rfl 0 ⟨Status.accepted.toInt32⟩ (by simp)

/-- C9: with no active request (empty lookahead slot and empty backlog),
pressing accept (`y`) or reject (`n`) is not a harmless no-op: `pop`
returns none and the `.expect("can't handle response w/o patch")` in
`handle_patch_response` panics, aborting the review loop.  This evaluates
the code at the claim's failing input. -/
theorem c9_accept_on_empty_queue_panics :
    handleKeyEvent aliveAll ⟨⟨none, []⟩, .new, false⟩ ⟨.char 'y', .none⟩
      = .panicked "can't handle response w/o patch"
    ∧ handleKeyEvent aliveAll ⟨⟨none, []⟩, .new, false⟩ ⟨.char 'n', .none⟩
      = .panicked "can't handle response w/o patch" :=
  ⟨rfl, rfl⟩

/-- C10: a binary message that decodes as a Submission whose patch text is
not a parseable unified diff (here the bare hunk header `@@ -1 +1 @@`)
makes `PatchRequest::try_from` fail, so the handler's
`.expect("patches should all be valid")` fires and aborts the handler
task — the message is not dropped with the connection kept open. -/
theorem c10_unparseable_patch_aborts_handler :
    decodePatch badPatchBytes = .ok ⟨none, "@@ -1 +1 @@"⟩
    ∧ parsePatchSet "@@ -1 +1 @@" = .error "unexpected hunk found"
    ∧ PatchRequest.tryFrom ⟨none, "@@ -1 +1 @@"⟩ 0 = .error "unexpected hunk found"
    ∧ handlerStep ⟨.awaiting, [], [], false⟩ (.msg (some (.binary badPatchBytes)))
        = some (.panicked "patches should all be valid") := by
  exact ⟨by decide, by decide, by decide, by decide⟩

end Patchpal
